import Mathlib

/-!
Shallow embedding of `src/system_extra.rs` from the amethyst repository:
the `Pausable` conditional-execution wrapper for ECS systems, together with
the concrete doc-example scenario (`AddNumber` systems dispatched over a
shared `u32` counter gated by a `State` control resource).

A system (`shred::System`) is modelled as a record `SystemImpl σ D`:
its private fields form the state `σ`, its `SystemData` value is `D`, and
`run : σ → D → σ × D` returns the updated private state together with the
updated resource values reachable through the data handles (a write-back
view of the mutations `run` performs through `&mut` handles).  Declared
access signatures (`SystemData::reads`/`writes`) are lists of resource
ids, concatenated for tuples exactly as shred concatenates them.
-/

namespace Amethyst

/-- A resource type identifier (shred's `ResourceId`). -/
abbrev ResourceId := Nat

/-- shred's `RunningTime` scheduling-cost hint. -/
inductive RunningTime
  | VeryShort
  | Short
  | Average
  | Long
  | VeryLong
deriving DecidableEq

/-- Declared access signature of a `SystemData` bundle: the list of resource
ids it reads and the list it writes (shred returns `Vec<ResourceId>`). -/
structure Accessor where
  reads : List ResourceId
  writes : List ResourceId
deriving DecidableEq

/-- Signature contributed by a `Read<V>` handle: one shared read of `V`'s
resource id, no writes. -/
def readAccessor (v : ResourceId) : Accessor :=
  { reads := [v], writes := [] }

/-- Signature of a tuple `(A, B)` of system data: shred concatenates the
component reads and the component writes. -/
def tupleAccessor (a b : Accessor) : Accessor :=
  { reads := a.reads ++ b.reads, writes := a.writes ++ b.writes }

/-- A system implementation: `run` over private state `σ` and fetched data
`D`, the declared signature of its `SystemData` type, and its
`running_time` hint (which in Rust takes `&self`). -/
structure SystemImpl (σ D : Type) where
  run : σ → D → σ × D
  sig : Accessor
  running_time : σ → RunningTime

/-- `Pausable<S, V>` from `system_extra.rs`: the wrapped system's private
state plus the immutable guard value. -/
structure Pausable (σ V : Type) where
  system : σ
  value : V

/-- `SystemExtra::pausable`: wrap a system with a guard value. -/
def SystemExtra.pausable {σ V : Type} (system : σ) (value : V) : Pausable σ V :=
  { system := system, value := value }

/-- `Pausable`'s `type SystemData = (Read<V>, S::SystemData)`: its declared
signature is the tuple of a shared read of the control resource and the
wrapped system's own signature. -/
def Pausable.sig (vId : ResourceId) (s : Accessor) : Accessor :=
  tupleAccessor (readAccessor vId) s

/-- `Pausable::run`: if the guard differs from the current control value,
return immediately; otherwise forward the rest of the data to the wrapped
system's `run`. -/
def Pausable.run {σ V D : Type} [DecidableEq V] (impl : SystemImpl σ D)
    (self : Pausable σ V) (data : V × D) : Pausable σ V × (V × D) :=
  if self.value ≠ data.1 then
    (self, data)
  else
    let r := impl.run self.system data.2
    ({ self with system := r.1 }, (data.1, r.2))

/-- `Pausable::running_time`: forwards the wrapped system's hint. -/
def Pausable.running_time {σ V D : Type} (impl : SystemImpl σ D) (self : Pausable σ V) :
    RunningTime :=
  impl.running_time self.system

/-- Call-logging instrumentation: same system, but its state additionally
records, in order, every data value its `run` was invoked with.  Used to
state "the wrapped unit's run is called exactly once, with exactly the
forwarded data". -/
def logged {σ D : Type} (impl : SystemImpl σ D) : SystemImpl (σ × List D) D :=
  { run := fun s d =>
      let r := impl.run s.1 d
      ((r.1, s.2 ++ [d]), r.2),
    sig := impl.sig,
    running_time := fun s => impl.running_time s.1 }

/-- `Pausable::run` in a failure monad: the same two-branch body, but the
wrapped system's `run` may fail (a Rust panic/unwind during the forwarded
call).  The forwarded call is the final action of `Pausable::run`, so a
failure there leaves the wrapper nothing to do: it propagates unchanged. -/
def Pausable.runE {σ V D ε : Type} [DecidableEq V]
    (implE : σ → D → Except ε (σ × D)) (self : Pausable σ V) (data : V × D) :
    Except ε (Pausable σ V × (V × D)) :=
  if self.value ≠ data.1 then
    Except.ok (self, data)
  else
    match implE self.system data.2 with
    | Except.error e => Except.error e
    | Except.ok r => Except.ok ({ self with system := r.1 }, (data.1, r.2))

/-- Modelled from the spec: the Resource Store's default-install hook (the
host dispatcher's setup phase, external to `system_extra.rs`) for the
control resource slot — if the control resource does not yet exist it
installs the control type's declared default, otherwise it leaves the
stored value unchanged. -/
def setupControl {V : Type} (dflt : V) : Option V → Option V
  | none => some dflt
  | some c => some c

/-- Modelled from the spec: a tick of the wrapper against a store in which
the control resource slot may be absent (`none`).  Fetching a missing
resource is a startup/configuration failure (`none` result); the wrapper
never inserts the missing resource itself.  When the slot is present the
tick is exactly `Pausable.run`, and the control slot is handed back
untouched (the wrapper only holds a shared read of it). -/
def Pausable.runChecked {σ V D : Type} [DecidableEq V] (impl : SystemImpl σ D)
    (self : Pausable σ V) (ctrl : Option V) (d : D) :
    Option (Pausable σ V × Option V × D) :=
  match ctrl with
  | none => none
  | some c =>
    let r := Pausable.run impl self (c, d)
    some (r.1, some r.2.1, r.2.2)

/-! ## The doc-example scenario of `SystemExtra::pausable`

Control resource `enum State { Disabled, Enabled }` defaulting to
`Disabled`; systems `AddNumber(1)` (unwrapped) and
`AddNumber(2).pausable(State::Enabled)` both writing the shared `u32`
resource; a dispatcher that runs them once per tick in registration order
(they conflict on the `u32` write, so they are serialized). -/

/-- The `State` control enum of the doc example. -/
inductive ScenarioState
  | Disabled
  | Enabled
deriving DecidableEq

/-- `Default for State` in the doc example returns `Disabled`. -/
def ScenarioState.default : ScenarioState :=
  ScenarioState.Disabled

/-- Wrap-around of Rust `u32` arithmetic. -/
def u32Wrap (n : Nat) : Nat :=
  n % 4294967296

/-- `AddNumber::run`: `*number += self.0` on the `Write<u32>` data.  The
system's private state is its `u32` field, which `run` never changes. -/
def AddNumber.run (self : Nat) (number : Nat) : Nat × Nat :=
  (self, u32Wrap (number + self))

/-- Resource id standing for the `u32` resource in the example. -/
def u32ResId : ResourceId := 0

/-- Resource id standing for the `State` control resource in the example. -/
def stateResId : ResourceId := 1

/-- `AddNumber` as a system: `SystemData = Write<u32>` (one exclusive
write, no reads), default `running_time` of `Average`. -/
def addNumberImpl : SystemImpl Nat Nat :=
  { run := AddNumber.run,
    sig := { reads := [], writes := [u32ResId] },
    running_time := fun _ => RunningTime.Average }

/-- The example's resource store after setup: the `u32` counter and the
`State` control resource. -/
structure ScenarioWorld where
  number : Nat
  state : ScenarioState
deriving DecidableEq

/-- The example's dispatcher: `AddNumber(1)` registered as `set_number`,
`AddNumber(2).pausable(State::Enabled)` registered as `set_number_2`. -/
structure ScenarioDispatcher where
  set_number : Nat
  set_number_2 : Pausable Nat ScenarioState

/-- `DispatcherBuilder::default().with(AddNumber(1), ..).with(AddNumber(2)
.pausable(State::Enabled), ..).build()`. -/
def ScenarioDispatcher.build : ScenarioDispatcher :=
  { set_number := 1,
    set_number_2 := SystemExtra.pausable 2 ScenarioState.Enabled }

/-- `dispatcher.setup(&mut world.res)`: installs the declared defaults,
`0u32` for the counter and `State::Disabled` for the control resource. -/
def scenarioSetup : ScenarioWorld :=
  { number := 0, state := ScenarioState.Disabled }

/-- One `dispatcher.dispatch(&mut world.res)` tick: `set_number` runs on
`Write<u32>`, then `set_number_2` runs on `(Read<State>, Write<u32>)`. -/
def ScenarioDispatcher.dispatch (d : ScenarioDispatcher) (w : ScenarioWorld) :
    ScenarioDispatcher × ScenarioWorld :=
  let r1 := AddNumber.run d.set_number w.number
  let r2 := Pausable.run addNumberImpl d.set_number_2 (w.state, r1.2)
  ({ set_number := r1.1, set_number_2 := r2.1 }, { w with number := r2.2.2 })

/-! ## Small concrete systems used by witness theorems -/

/-- A concrete system over `Nat` state and `Nat` data, for witnesses. -/
def implNat : SystemImpl Nat Nat :=
  { run := fun s d => (s + 1, d + s),
    sig := { reads := [2], writes := [3] },
    running_time := fun _ => RunningTime.Short }

/-- A concrete always-failing fallible system body, for witnesses. -/
def failImpl (_ : Nat) (_ : Nat) : Except String (Nat × Nat) :=
  Except.error "boom"

/-- A concrete side-effect-free system (its `run` never changes the
resources it was handed), for witnesses. -/
def idImplNat : SystemImpl Nat Nat :=
  { run := fun s d => (s + 1, d),
    sig := { reads := [2], writes := [] },
    running_time := fun _ => RunningTime.VeryShort }

/-- A registration of two wrapped systems sharing the same control
resource: both wrappers read the same control value `c`, and the dispatcher
runs them in order, threading the shared data through.  Returns the two
updated wrappers, the control value handed back, and the final data. -/
def twoWrapped {σ₁ σ₂ V D : Type} [DecidableEq V]
    (i1 : SystemImpl σ₁ D) (i2 : SystemImpl σ₂ D)
    (p1 : Pausable σ₁ V) (p2 : Pausable σ₂ V) (c : V) (d : D) :
    Pausable σ₁ V × Pausable σ₂ V × V × D :=
  let r1 := Pausable.run i1 p1 (c, d)
  let r2 := Pausable.run i2 p2 (r1.2.1, r1.2.2)
  (r1.1, r2.1, r2.2.1, r2.2.2)

/-! ## Helper lemmas about `Pausable.run` (shared by the claim theorems) -/

/-- When the guard equals the current control value, `Pausable::run` is
exactly one forwarded call of the wrapped system's `run` on the rest of
the data. -/
theorem Pausable.run_of_match {σ V D : Type} [DecidableEq V]
    (impl : SystemImpl σ D) (self : Pausable σ V) (c : V) (d : D)
    (h : self.value = c) :
    Pausable.run impl self (c, d)
      = ({ system := (impl.run self.system d).1, value := self.value },
         (c, (impl.run self.system d).2)) := by
  unfold Pausable.run
  rw [if_neg (fun hn => hn h)]

/-- When the guard differs from the current control value, `Pausable::run`
returns immediately, leaving the wrapper and all data untouched. -/
theorem Pausable.run_of_mismatch {σ V D : Type} [DecidableEq V]
    (impl : SystemImpl σ D) (self : Pausable σ V) (c : V) (d : D)
    (h : self.value ≠ c) :
    Pausable.run impl self (c, d) = (self, (c, d)) := by
  unfold Pausable.run
  rw [if_pos h]

/-- `Pausable::run` hands the control resource back unchanged in both
branches: it never writes the control resource. -/
theorem Pausable.run_control_unchanged {σ V D : Type} [DecidableEq V]
    (impl : SystemImpl σ D) (self : Pausable σ V) (c : V) (d : D) :
    (Pausable.run impl self (c, d)).2.1 = c := by
  by_cases h : self.value = c
  · rw [Pausable.run_of_match impl self c d h]
  · rw [Pausable.run_of_mismatch impl self c d h]

/-- `Pausable::run` never changes the stored guard value. -/
theorem Pausable.run_value_unchanged {σ V D : Type} [DecidableEq V]
    (impl : SystemImpl σ D) (self : Pausable σ V) (c : V) (d : D) :
    (Pausable.run impl self (c, d)).1.value = self.value := by
  by_cases h : self.value = c
  · rw [Pausable.run_of_match impl self c d h]
  · rw [Pausable.run_of_mismatch impl self c d h]

/-! ## Claim theorems -/

/-- Claim C1: for every work unit, guard value `v` and current control
value `c`, `Pausable::run` on data `(c, d)` invokes the wrapped unit's
`run` exactly once with exactly the data `d` its own signature requires
iff `c = v`; when `c ≠ v` the wrapped unit is not invoked at all and the
tick is a no-op.  Invocations are observed through the call-logging
instrumentation `logged`. -/
theorem pausable_run_gates_wrapped_run {σ V D : Type} [DecidableEq V]
    (impl : SystemImpl σ D) (v : V) (s : σ) (c : V) (d : D) :
    ((Pausable.run (logged impl) (SystemExtra.pausable (s, ([] : List D)) v)
        (c, d)).1.system.2 = [d] ↔ c = v)
    ∧ (c = v →
        Pausable.run (logged impl) (SystemExtra.pausable (s, ([] : List D)) v) (c, d)
          = ({ system := ((impl.run s d).1, [d]), value := v },
             (c, (impl.run s d).2)))
    ∧ (c ≠ v →
        Pausable.run (logged impl) (SystemExtra.pausable (s, ([] : List D)) v) (c, d)
          = (SystemExtra.pausable (s, ([] : List D)) v, (c, d))) := by
  by_cases h : c = v
  · subst h
    rw [Pausable.run_of_match (logged impl) _ c d rfl]
    refine ⟨⟨fun _ => rfl, fun _ => ?_⟩, fun _ => ?_, fun hc => absurd rfl hc⟩
    · rfl
    · rfl
  · rw [Pausable.run_of_mismatch (logged impl) _ c d (fun hv => h hv.symm)]
    exact ⟨⟨fun hl => absurd hl (by simp [SystemExtra.pausable]), fun hc => absurd hc h⟩,
           fun hc => absurd hc h, fun _ => rfl⟩

/-- Claim C1 witness: at guard 5, control 5 and data 7, the instrumented
wrapped system is invoked exactly once with exactly 7. -/
theorem pausable_run_gates_wrapped_run_witness :
    (Pausable.run (logged implNat) (SystemExtra.pausable ((0 : Nat), ([] : List Nat)) 5)
      ((5 : Nat), (7 : Nat))).1.system.2 = [7] :=
  (pausable_run_gates_wrapped_run implNat 5 0 5 7).1.mpr rfl

/-- Claim C2: `Pausable`'s declared signature is the wrapped unit's
signature plus one shared read of the control resource: its read set is
the wrapped read set union the control resource id, its write set is
exactly the wrapped write set (so every declared write, e.g. to some
resource `R`, is still declared), the `Read` handle itself declares no
write, and `Pausable::run` never writes the control resource. -/
theorem pausable_signature_adds_control_read {σ V D : Type} [DecidableEq V]
    (vId : ResourceId) (s : Accessor) (impl : SystemImpl σ D)
    (self : Pausable σ V) (c : V) (d : D) :
    (∀ x, x ∈ (Pausable.sig vId s).reads ↔ x = vId ∨ x ∈ s.reads)
    ∧ (Pausable.sig vId s).writes = s.writes
    ∧ (readAccessor vId).writes = []
    ∧ (Pausable.run impl self (c, d)).2.1 = c := by
  refine ⟨?_, rfl, rfl, Pausable.run_control_unchanged impl self c d⟩
  intro x
  simp [Pausable.sig, tupleAccessor, readAccessor]

/-- Claim C3: when the current control value is unequal to the guard,
`Pausable::run` returns immediately and leaves everything unchanged — the
wrapper state and every granted resource (the whole data bundle, in
particular everything the wrapped unit would have written) keep their
prior values. -/
theorem pausable_mismatch_is_noop {σ V D : Type} [DecidableEq V]
    (impl : SystemImpl σ D) (self : Pausable σ V) (c : V) (d : D)
    (h : c ≠ self.value) :
    Pausable.run impl self (c, d) = (self, (c, d)) :=
  Pausable.run_of_mismatch impl self c d (Ne.symm h)

/-- Claim C3 witness: control 6 against guard 5 leaves the wrapper and the
data bundle untouched. -/
theorem pausable_mismatch_is_noop_witness :
    ((6 : Nat) ≠ (5 : Nat))
    ∧ Pausable.run implNat { system := 0, value := 5 } ((6 : Nat), (7 : Nat))
        = ({ system := 0, value := 5 }, (6, 7)) :=
  ⟨by decide, pausable_mismatch_is_noop implNat { system := 0, value := 5 } 6 7 (by decide)⟩

/-- Claim C4 counterexample: running the scenario exactly as the claim
states it — counter initialized to 0, one tick with the default control
(counter = 1), then setting the control to `Enabled` and ticking again
with the counter carried over ("cumulative across the two ticks") — yields
counter = 4, not 1 + 2: in the second tick both `AddNumber(1)` and the
now-enabled `AddNumber(2)` run on top of the carried-over 1. -/
theorem scenario_cumulative_counterexample :
    ((ScenarioDispatcher.build.dispatch scenarioSetup).2.number = 1)
    ∧ (((ScenarioDispatcher.build.dispatch scenarioSetup).1.dispatch
        { (ScenarioDispatcher.build.dispatch scenarioSetup).2 with
          state := ScenarioState.Enabled }).2.number = 4)
    ∧ ¬ (((ScenarioDispatcher.build.dispatch scenarioSetup).1.dispatch
        { (ScenarioDispatcher.build.dispatch scenarioSetup).2 with
          state := ScenarioState.Enabled }).2.number = 1 + 2) := by
  decide

/-- Claim C4 (amended): the doc example resets the counter to 0 before
each dispatch.  After setup, writing 0 to the counter and ticking with the
default control yields counter = 1; then writing 0 to the counter again,
setting the control to `Enabled` and ticking yields counter = 1 + 2 — the
second assertion's value comes from the fresh 0 + 1 + 2 of that tick
alone, not from accumulation across the two ticks. -/
theorem scenario_assertions_with_reset :
    ((ScenarioDispatcher.build.dispatch { scenarioSetup with number := 0 }).2.number = 1)
    ∧ (((ScenarioDispatcher.build.dispatch { scenarioSetup with number := 0 }).1.dispatch
        { (ScenarioDispatcher.build.dispatch { scenarioSetup with number := 0 }).2 with
          number := 0, state := ScenarioState.Enabled }).2.number = 1 + 2) := by
  decide

/-- Claim C5: the wrapper is stateless apart from the immutable guard —
its `run` never changes the stored guard, changes the stored unit only by
the unit's own `run` (and not at all on a skipped tick), and with a
side-effect-free wrapped unit a tick leaves the resource state identical,
so re-running with the control value unchanged reproduces the same
resource state. -/
theorem pausable_stateless_passthrough {σ V D : Type} [DecidableEq V]
    (impl : SystemImpl σ D) (self : Pausable σ V) (c : V) (d : D) :
    ((Pausable.run impl self (c, d)).1.value = self.value)
    ∧ ((Pausable.run impl self (c, d)).1.system
        = if self.value = c then (impl.run self.system d).1 else self.system)
    ∧ ((∀ t x, (impl.run t x).2 = x) →
        (Pausable.run impl self (c, d)).2 = (c, d)
        ∧ (Pausable.run impl (Pausable.run impl self (c, d)).1
            ((Pausable.run impl self (c, d)).2)).2 = (c, d)) := by
  have hfree : ∀ (p : Pausable σ V), (∀ t x, (impl.run t x).2 = x) →
      (Pausable.run impl p (c, d)).2 = (c, d) := by
    intro p hf
    by_cases h : p.value = c
    · rw [Pausable.run_of_match impl p c d h, hf]
    · rw [Pausable.run_of_mismatch impl p c d h]
  refine ⟨Pausable.run_value_unchanged impl self c d, ?_, fun hf => ?_⟩
  · by_cases h : self.value = c
    · rw [Pausable.run_of_match impl self c d h, if_pos h]
    · rw [Pausable.run_of_mismatch impl self c d h, if_neg h]
  · refine ⟨hfree self hf, ?_⟩
    rw [hfree self hf]
    exact hfree _ hf

/-- Claim C5 witness: a side-effect-free wrapped unit run at guard 5 and
control 5 leaves the resource data (5, 9) identical. -/
theorem pausable_stateless_passthrough_witness :
    (Pausable.run idImplNat { system := 0, value := 5 } ((5 : Nat), (9 : Nat))).2 = (5, 9) :=
  ((pausable_stateless_passthrough idImplNat { system := 0, value := 5 } 5 9).2.2
    (fun _ _ => rfl)).1

/-- Claim C6: a failure raised during the forwarded execution propagates
out of `Pausable::run` unchanged — the wrapper never swallows or retries
it — and on success the wrapper performs no action of its own after
forwarding: the outcome is exactly the wrapped unit's outcome. -/
theorem pausable_propagates_wrapped_failure {σ V D ε : Type} [DecidableEq V]
    (implE : σ → D → Except ε (σ × D)) (self : Pausable σ V) (c : V) (d : D)
    (h : self.value = c) :
    (∀ e, implE self.system d = Except.error e →
        Pausable.runE implE self (c, d) = Except.error e)
    ∧ (∀ r, implE self.system d = Except.ok r →
        Pausable.runE implE self (c, d)
          = Except.ok ({ system := r.1, value := self.value }, (c, r.2))) := by
  unfold Pausable.runE
  rw [if_neg (fun hn => hn h)]
  constructor
  · intro e he
    rw [he]
  · intro r hr
    rw [hr]

/-- Claim C6 witness: a wrapped unit failing with "boom" at guard 5 and
control 5 makes the wrapper fail with exactly "boom". -/
theorem pausable_propagates_wrapped_failure_witness :
    Pausable.runE failImpl { system := 0, value := 5 } ((5 : Nat), (7 : Nat))
      = Except.error "boom" :=
  (pausable_propagates_wrapped_failure failImpl { system := 0, value := 5 } 5 7 rfl).1
    "boom" rfl

/-- Claim C7: two units wrapped over the same control resource with
distinct guard values `v1 ≠ v2`: on any tick at most one of the two
executes, and if the live control value equals one of the guards then
exactly that unit produces its side effect (the other logs nothing); the
gate is nothing more than the per-unit equality test. -/
theorem pausable_distinct_guards_exclusive {σ₁ σ₂ V D : Type} [DecidableEq V]
    (i1 : SystemImpl σ₁ D) (i2 : SystemImpl σ₂ D) (v1 v2 : V) (s1 : σ₁) (s2 : σ₂)
    (c : V) (d : D) (hne : v1 ≠ v2) :
    ((twoWrapped (logged i1) (logged i2)
        (SystemExtra.pausable (s1, ([] : List D)) v1)
        (SystemExtra.pausable (s2, ([] : List D)) v2) c d).1.system.2.length
      + (twoWrapped (logged i1) (logged i2)
        (SystemExtra.pausable (s1, ([] : List D)) v1)
        (SystemExtra.pausable (s2, ([] : List D)) v2) c d).2.1.system.2.length ≤ 1)
    ∧ (c = v1 →
        (twoWrapped (logged i1) (logged i2)
          (SystemExtra.pausable (s1, ([] : List D)) v1)
          (SystemExtra.pausable (s2, ([] : List D)) v2) c d).1.system.2 = [d]
        ∧ (twoWrapped (logged i1) (logged i2)
          (SystemExtra.pausable (s1, ([] : List D)) v1)
          (SystemExtra.pausable (s2, ([] : List D)) v2) c d).2.1.system.2 = [])
    ∧ (c = v2 →
        (twoWrapped (logged i1) (logged i2)
          (SystemExtra.pausable (s1, ([] : List D)) v1)
          (SystemExtra.pausable (s2, ([] : List D)) v2) c d).1.system.2 = []
        ∧ (twoWrapped (logged i1) (logged i2)
          (SystemExtra.pausable (s1, ([] : List D)) v1)
          (SystemExtra.pausable (s2, ([] : List D)) v2) c d).2.1.system.2 = [d]) := by
  by_cases h1 : c = v1
  · simp [twoWrapped, Pausable.run, logged, SystemExtra.pausable, h1, hne,
      Ne.symm hne]
  · by_cases h2 : c = v2
    · simp [twoWrapped, Pausable.run, logged, SystemExtra.pausable, h2, hne,
        Ne.symm hne]
    · simp [twoWrapped, Pausable.run, logged, SystemExtra.pausable, h1, h2,
        Ne.symm h1, Ne.symm h2]

/-- Claim C7 witness: guards 0 and 1 with live control 1 — only the second
wrapped unit logs its single invocation. -/
theorem pausable_distinct_guards_exclusive_witness :
    ((0 : Nat) ≠ 1)
    ∧ ((twoWrapped (logged implNat) (logged idImplNat)
        (SystemExtra.pausable ((0 : Nat), ([] : List Nat)) 0)
        (SystemExtra.pausable ((0 : Nat), ([] : List Nat)) 1) 1 7).1.system.2 = []
      ∧ (twoWrapped (logged implNat) (logged idImplNat)
        (SystemExtra.pausable ((0 : Nat), ([] : List Nat)) 0)
        (SystemExtra.pausable ((0 : Nat), ([] : List Nat)) 1) 1 7).2.1.system.2 = [7]) :=
  ⟨by decide,
   (pausable_distinct_guards_exclusive implNat idImplNat 0 1 0 0 1 7 (by decide)).2.2 rfl⟩

/-- Claim C8: if the control resource is absent the wrapper's tick fails
rather than creating it — the default must have been installed beforehand
by the owning application's setup (modelled from the spec as
`setupControl`, which installs the control type's declared default exactly
when the slot is empty); when the slot is present the wrapper hands it
back unchanged. -/
theorem control_resource_default_contract {σ V D : Type} [DecidableEq V]
    (dflt c : V) (impl : SystemImpl σ D) (self : Pausable σ V) (d : D) :
    (setupControl dflt none = some dflt)
    ∧ (∀ v : V, setupControl dflt (some v) = some v)
    ∧ (Pausable.runChecked impl self none d = none)
    ∧ (∀ r, Pausable.runChecked impl self (some c) d = some r → r.2.1 = some c) := by
  refine ⟨rfl, fun _ => rfl, rfl, ?_⟩
  intro r hr
  unfold Pausable.runChecked at hr
  injection hr with h
  subst h
  simp [Pausable.run_control_unchanged impl self c d]

/-- Claim C8 witness: with the control slot absent, the wrapper's tick
fails instead of creating the resource. -/
theorem control_resource_default_contract_witness :
    Pausable.runChecked implNat { system := 0, value := 5 } (none : Option Nat) 7 = none :=
  (control_resource_default_contract 0 5 implNat { system := 0, value := 5 } 7).2.2.1

/-- Claim C9: `Pausable::running_time` reports exactly the wrapped unit's
cost hint; it takes no resource data at all, so the hint is independent of
the current control value. -/
theorem pausable_forwards_running_time {σ V D : Type}
    (impl : SystemImpl σ D) (self : Pausable σ V) :
    Pausable.running_time impl self = impl.running_time self.system := rfl

/-- Claim C10: when the guard passed to `pausable` equals the control
type's default value, then after setup installs that default, a tick on
the still-default control value runs the wrapped unit (exactly one logged
invocation): a default-valued guard does not mean paused by default. -/
theorem default_guard_runs_while_default {σ V D : Type} [DecidableEq V]
    (dflt : V) (impl : SystemImpl σ D) (s : σ) (d : D) :
    (setupControl dflt none = some dflt)
    ∧ ((Pausable.run (logged impl) (SystemExtra.pausable (s, ([] : List D)) dflt)
        (dflt, d)).1.system.2 = [d]) := by
  refine ⟨rfl, ?_⟩
  rw [Pausable.run_of_match (logged impl) _ dflt d rfl]
  rfl

end Amethyst
